import Mathlib

/-!
# Verification of the BallBalance task (`tasks/ball copy.py`)

Shallow embedding of the vectorized episode-lifecycle logic of the
`BallBalance` environment: reward/termination evaluation
(`compute_bot_reward`), observation assembly (`compute_observations`),
reset sampling (`reset_idx`), action application (`pre_physics_step`),
and the geometric constants of the procedural asset builder
(`_create_balance_bot_file`) and the attractor setup (`_create_envs`).

Floating-point tensors are modelled over `ℝ`; integer tensors
(`progress_buf`, `reset_buf`) over `ℤ`.  A batch of `n` environments is
a function `Fin n → ...`; every torch operation in the source is
elementwise over the environment dimension, so the batched definitions
compute each environment's entry from that environment's inputs exactly
as the source lines do.
-/

namespace BallBalance

/-! ## Reward and termination (`compute_bot_reward`, lines 447-465)

Source:
```
ball_dist = torch.sqrt(ball_positions[..., 0] * ball_positions[..., 0] +
            (ball_positions[..., 2] - 0.7) * (ball_positions[..., 2] - 0.7) +
            (ball_positions[..., 1]) * ball_positions[..., 1])
ball_speed = torch.sqrt(ball_velocities[..., 0] * ball_velocities[..., 0] +
             ball_velocities[..., 1] * ball_velocities[..., 1] +
             ball_velocities[..., 2] * ball_velocities[..., 2])
pos_reward = 1.0 / (1.0 + ball_dist)
speed_reward = 1.0 / (1.0 + ball_speed)
reward = pos_reward * speed_reward
reset = torch.where(progress_buf >= max_episode_length - 1, torch.ones_like(reset_buf), reset_buf)
reset = torch.where(ball_positions[..., 2] < ball_radius * 1.5, torch.ones_like(reset_buf), reset)
```
Note that the `tray_positions` argument is accepted but never read. -/

/-- Embedding of the torch expression
`torch.sqrt(bp[...,0]*bp[...,0] + (bp[...,2]-0.7)*(bp[...,2]-0.7) + bp[...,1]*bp[...,1])`
for one environment. -/
noncomputable def ball_dist (bp : Fin 3 → ℝ) : ℝ :=
  Real.sqrt (bp 0 * bp 0 + (bp 2 - 0.7) * (bp 2 - 0.7) + bp 1 * bp 1)

/-- Embedding of `torch.sqrt(bv[...,0]*bv[...,0] + bv[...,1]*bv[...,1] + bv[...,2]*bv[...,2])`
for one environment. -/
noncomputable def ball_speed (bv : Fin 3 → ℝ) : ℝ :=
  Real.sqrt (bv 0 * bv 0 + bv 1 * bv 1 + bv 2 * bv 2)

/-- Embedding of `compute_bot_reward` (batched over `n` environments).
`tray_positions` is a parameter of the source function that its body never
uses; it is kept here for fidelity to the signature. -/
noncomputable def compute_bot_reward (n : ℕ)
    (tray_positions ball_positions ball_velocities : Fin n → Fin 3 → ℝ)
    (ball_radius : ℝ) (reset_buf : Fin n → ℤ) (progress_buf : Fin n → ℤ)
    (max_episode_length : ℝ) : (Fin n → ℝ) × (Fin n → ℤ) :=
  let pos_reward : Fin n → ℝ := fun i => 1.0 / (1.0 + ball_dist (ball_positions i))
  let speed_reward : Fin n → ℝ := fun i => 1.0 / (1.0 + ball_speed (ball_velocities i))
  let reward : Fin n → ℝ := fun i => pos_reward i * speed_reward i
  let reset1 : Fin n → ℤ := fun i =>
    if (progress_buf i : ℝ) ≥ max_episode_length - 1 then 1 else reset_buf i
  let reset2 : Fin n → ℤ := fun i =>
    if ball_positions i 2 < ball_radius * 1.5 then 1 else reset1 i
  (reward, reset2)

/-! ## Observation assembly (`compute_observations`, lines 329-341)

Source:
```
actuated_dof_indices = torch.tensor([1,3,5], device=self.device)
self.obs_buf[..., 0:3] = self.dof_positions[..., actuated_dof_indices]
self.obs_buf[..., 3:6] = self.dof_velocities[..., actuated_dof_indices]
self.obs_buf[..., 6:9] = self.ball_positions
self.obs_buf[..., 9:12] = self.ball_linvels
self.obs_buf[..., 12:15] = self.sensor_forces[..., 0]
self.obs_buf[..., 15:18] = self.sensor_torques[..., 0]
self.obs_buf[..., 18:21] = self.sensor_torques[..., 1]
self.obs_buf[..., 21:24] = self.sensor_torques[..., 2]
```
`sensor_forces` and `sensor_torques` have shape
`(num_envs, sensors_per_env = 3, 3)` (slices `[..., 0:3]` and `[..., 3:6]`
of the wrapped sensor tensor of shape `(num_envs, 3, 6)`).  Indexing such a
tensor with `[..., c]` selects component `c` of the last axis for *all
three sensors*, yielding shape `(num_envs, 3)`. -/

/-- The fixed actuated DOF index list `[1, 3, 5]`. -/
def actuated_dof_indices : Fin 3 → Fin 6 := ![1, 3, 5]

/-- Per-environment state read by `compute_observations`: the aliased views
of the state tensors (`[env, ...]` with the `env` axis dropped).  Sensor
fields are indexed `[sensor, component]`. -/
structure EnvObsState where
  dof_positions : Fin 6 → ℝ
  dof_velocities : Fin 6 → ℝ
  ball_positions : Fin 3 → ℝ
  ball_linvels : Fin 3 → ℝ
  sensor_forces : Fin 3 → Fin 3 → ℝ
  sensor_torques : Fin 3 → Fin 3 → ℝ

/-- Embedding of `compute_observations` for one environment: the 24-float
observation vector.  Each slice assignment of the source becomes one guard;
`[..., c]` on a `(3, 3)` sensor slice becomes `fun s => field s c`. -/
def compute_observations (st : EnvObsState) : Fin 24 → ℝ := fun k =>
  if h3 : (k : ℕ) < 3 then
    st.dof_positions (actuated_dof_indices ⟨k, h3⟩)
  else if h6 : (k : ℕ) < 6 then
    st.dof_velocities (actuated_dof_indices ⟨(k : ℕ) - 3, by omega⟩)
  else if h9 : (k : ℕ) < 9 then
    st.ball_positions ⟨(k : ℕ) - 6, by omega⟩
  else if h12 : (k : ℕ) < 12 then
    st.ball_linvels ⟨(k : ℕ) - 9, by omega⟩
  else if h15 : (k : ℕ) < 15 then
    st.sensor_forces ⟨(k : ℕ) - 12, by omega⟩ 0
  else if h18 : (k : ℕ) < 18 then
    st.sensor_torques ⟨(k : ℕ) - 15, by omega⟩ 0
  else if h21 : (k : ℕ) < 21 then
    st.sensor_torques ⟨(k : ℕ) - 18, by omega⟩ 1
  else
    st.sensor_torques ⟨(k : ℕ) - 21, by have := k.isLt; omega⟩ 2

/-- A fabricated marker state: every scalar field carries a distinct value,
used to pin down the observation layout.  Entry conventions:
`dof_positions d = 1000 + d`, `dof_velocities d = 2000 + d`,
`ball_positions c = 3000 + c`, `ball_linvels c = 4000 + c`,
`sensor_forces s c = 5000 + 10 * s + c`,
`sensor_torques s c = 6000 + 10 * s + c`. -/
def markerObsState : EnvObsState where
  dof_positions := fun d => 1000 + (d : ℕ)
  dof_velocities := fun d => 2000 + (d : ℕ)
  ball_positions := fun c => 3000 + (c : ℕ)
  ball_linvels := fun c => 4000 + (c : ℕ)
  sensor_forces := fun s c => 5000 + 10 * (s : ℕ) + (c : ℕ)
  sensor_torques := fun s c => 6000 + 10 * (s : ℕ) + (c : ℕ)

/-- View a 3-vector of reals as a point of Euclidean 3-space (mathematical
vocabulary used to state that `ball_speed` is the Euclidean norm and
`ball_dist` a Euclidean distance). -/
noncomputable def toEuclidean (v : Fin 3 → ℝ) : EuclideanSpace ℝ (Fin 3) :=
  (WithLp.equiv 2 (Fin 3 → ℝ)).symm v

/-! ## Episode state and reset/action pipeline (lines 59-94, 355-421)

The wrapped state tensors of `__init__` are modelled per environment:

* `root_states : [env, actor, component]` with actor 0 the bot and actor 1
  the ball (lines 70-74), and the 13 root components laid out as
  `0:3` position, `3:7` orientation quaternion `(x, y, z, w)`,
  `7:10` linear velocity, `10:13` angular velocity;
* `dof_states : [env, dof, component]` with component 0 the DOF position
  and component 1 the DOF velocity (lines 77-78);
* `initial_root_states` / `initial_dof_states`: the snapshots cloned in
  `__init__` (lines 86-87);
* `progress_buf`, `reset_buf`: the per-environment episode counters;
* `dof_position_targets`: the integrated position targets (line 89).

The physics engine's own copies, written only through
`set_actor_root_state_tensor_indexed`, `set_dof_state_tensor_indexed` and
`set_dof_position_target_tensor`, are modelled as the `engine_*` fields:
an indexed write copies the named buffer's rows at exactly the passed
index set and leaves every other row of the engine copy unchanged. -/

/-- Per-environment batched state owned by the task, plus the engine-side
copies reachable only through the tensor-write calls. -/
structure SimState (n : ℕ) where
  root_states : Fin n → Fin 2 → Fin 13 → ℝ
  dof_states : Fin n → Fin 6 → Fin 2 → ℝ
  initial_root_states : Fin n → Fin 2 → Fin 13 → ℝ
  initial_dof_states : Fin n → Fin 6 → Fin 2 → ℝ
  progress_buf : Fin n → ℤ
  reset_buf : Fin n → ℤ
  dof_position_targets : Fin n → Fin 6 → ℝ
  engine_root : Fin n → Fin 2 → Fin 13 → ℝ
  engine_dof : Fin n → Fin 6 → Fin 2 → ℝ
  engine_targets : Fin n → Fin 6 → ℝ

/-- The random draws consumed by one `reset_idx` call, one per environment
(an environment's draw is only read when that environment is in the reset
subset).  The sources are:
`dists = torch_rand_float(min_d, max_d, ...)` with `min_d = 0.001`,
`max_d = 0.5`; `dirs = torch_random_dir_2(...)`, a unit 2D direction
`(cos θ, sin θ)`; `vpos = torch_rand_float(1.0, 2.0, ...)`;
`hspeeds = torch_rand_float(0, 0, ...)` (hence always `0`);
`vraw = torch_rand_float(5.0, 5.0, ...)` (hence always `5`). -/
structure BallSamples (n : ℕ) where
  dists : Fin n → ℝ
  dirs : Fin n → Fin 2 → ℝ
  vpos : Fin n → ℝ
  hspeeds : Fin n → ℝ
  vraw : Fin n → ℝ

/-- Embedding of `reset_idx` (lines 355-407).  In order, the source:
restores `root_states[env_ids]` from `initial_root_states`; overwrites the
ball's root state for the subset (position from `dists * dirs` and `vpos`,
identity orientation `(0, 0, 0, 1)`, horizontal velocity
`-speedscales * hspeeds * dirs`, vertical velocity `-vraw`, zero angular
velocity); issues the indexed engine writes (`root_tensor` rows for both
actors of the subset, DOF rows for the subset's bots — the DOF buffer
itself is never modified by this class); and finally clears `reset_buf`
and `progress_buf` for the subset.  Note the source contains no
`dof_states[env_ids] = initial_dof_states[env_ids]` restore. -/
noncomputable def reset_idx {n : ℕ} (s : SimState n) (env_ids : Fin n → Bool)
    (smp : BallSamples n) : SimState n :=
  let min_d : ℝ := 0.001
  let max_d : ℝ := 0.5
  let hpos : Fin n → Fin 2 → ℝ := fun e j => smp.dists e * smp.dirs e j
  let speedscales : Fin n → ℝ := fun e => (smp.dists e - min_d) / (max_d - min_d)
  let hvels : Fin n → Fin 2 → ℝ :=
    fun e j => -(speedscales e * smp.hspeeds e * smp.dirs e j)
  let vspeeds : Fin n → ℝ := fun e => -(smp.vraw e)
  let root1 : Fin n → Fin 2 → Fin 13 → ℝ := fun e a c =>
    if env_ids e then s.initial_root_states e a c else s.root_states e a c
  let root2 : Fin n → Fin 2 → Fin 13 → ℝ := fun e a c =>
    if env_ids e ∧ (a : ℕ) = 1 then
      if (c : ℕ) = 0 then hpos e 0
      else if (c : ℕ) = 1 then hpos e 1
      else if (c : ℕ) = 2 then smp.vpos e
      else if (c : ℕ) < 6 then 0
      else if (c : ℕ) = 6 then 1
      else if (c : ℕ) = 7 then hvels e 0
      else if (c : ℕ) = 8 then hvels e 1
      else if (c : ℕ) = 9 then vspeeds e
      else 0
    else root1 e a c
  { s with
    root_states := root2
    engine_root := fun e a c =>
      if env_ids e then root2 e a c else s.engine_root e a c
    engine_dof := fun e d j =>
      if env_ids e then s.dof_states e d j else s.engine_dof e d j
    reset_buf := fun e => if env_ids e then 0 else s.reset_buf e
    progress_buf := fun e => if env_ids e then 0 else s.progress_buf e }

/-- Embedding of `tensor_clamp` from the simulator's torch utilities:
`torch.max(torch.min(t, max_t), min_t)`. -/
noncomputable def tensor_clamp (t mn mx : ℝ) : ℝ := max (min t mx) mn

/-- The position targets allocated in `__init__` (line 89):
`torch.zeros((num_envs, dofs_per_env))`. -/
def initial_dof_position_targets (n : ℕ) : Fin n → Fin 6 → ℝ := fun _ _ => 0

/-- Embedding of `pre_physics_step` (lines 409-421).  In order, the source:
collects `reset_env_ids = reset_buf.nonzero()`; calls `reset_idx` on them
when the set is nonempty; adds `dt * action_speed_scale * actions` to the
targets at DOF indices `[1, 3, 5]` (action column 0 drives DOF 1, column 1
drives DOF 3, column 2 drives DOF 5); clamps every target between
`bot_dof_lower_limits` and `bot_dof_upper_limits`; zeroes all six targets
of the environments reset this call; and pushes the whole target tensor to
the engine with `set_dof_position_target_tensor` (a full, non-indexed
write).  `reset_idx` never touches `dof_position_targets`, so reading the
targets after the conditional call reads the incoming targets. -/
noncomputable def pre_physics_step {n : ℕ} (s : SimState n)
    (actions : Fin n → Fin 3 → ℝ) (smp : BallSamples n)
    (dt action_speed_scale : ℝ) (lower upper : Fin 6 → ℝ) : SimState n :=
  let reset_env_ids : Fin n → Bool := fun e => decide (s.reset_buf e ≠ 0)
  let s1 : SimState n :=
    if ∃ e, reset_env_ids e = true then reset_idx s reset_env_ids smp else s
  -- `reset_idx` does not write `dof_position_targets`, so the targets the
  -- source reads after the conditional `reset_idx` call are the incoming
  -- ones: `s1.dof_position_targets = s.dof_position_targets` in both
  -- branches (see `reset_idx_keeps_targets`).
  let targets1 : Fin n → Fin 6 → ℝ := fun e d =>
    if (d : ℕ) = 1 then
      s.dof_position_targets e d + dt * action_speed_scale * actions e 0
    else if (d : ℕ) = 3 then
      s.dof_position_targets e d + dt * action_speed_scale * actions e 1
    else if (d : ℕ) = 5 then
      s.dof_position_targets e d + dt * action_speed_scale * actions e 2
    else s.dof_position_targets e d
  let targets2 : Fin n → Fin 6 → ℝ :=
    fun e d => tensor_clamp (targets1 e d) (lower d) (upper d)
  let targets3 : Fin n → Fin 6 → ℝ :=
    fun e d => if reset_env_ids e then 0 else targets2 e d
  { s1 with dof_position_targets := targets3, engine_targets := targets3 }

/-- An all-zero two-environment state, used to instantiate the frame and
invariant theorems on a concrete input. -/
def zeroState2 : SimState 2 where
  root_states := fun _ _ _ => 0
  dof_states := fun _ _ _ => 0
  initial_root_states := fun _ _ _ => 0
  initial_dof_states := fun _ _ _ => 0
  progress_buf := fun _ => 0
  reset_buf := fun _ => 0
  dof_position_targets := fun _ _ => 0
  engine_root := fun _ _ _ => 0
  engine_dof := fun _ _ _ => 0
  engine_targets := fun _ _ => 0

/-- A one-environment state flagged for reset whose DOF states differ from
the recorded initial snapshot (`42` versus `0`). -/
def c5State : SimState 1 where
  root_states := fun _ _ _ => 0
  dof_states := fun _ _ _ => 42
  initial_root_states := fun _ _ _ => 0
  initial_dof_states := fun _ _ _ => 0
  progress_buf := fun _ => 7
  reset_buf := fun _ => 1
  dof_position_targets := fun _ _ => 0
  engine_root := fun _ _ _ => 0
  engine_dof := fun _ _ _ => 0
  engine_targets := fun _ _ => 0

/-- Concrete sample draws lying inside every sampling range:
`dists = 0.25 ∈ [0.001, 0.5]`, direction `(1, 0)` (a unit vector),
`vpos = 1.5 ∈ [1, 2]`, `hspeeds = 0` and `vraw = 5` (the only values their
degenerate ranges admit). -/
def rangeSamples (n : ℕ) : BallSamples n where
  dists := fun _ => 0.25
  dirs := fun _ j => if (j : ℕ) = 0 then 1 else 0
  vpos := fun _ => 1.5
  hspeeds := fun _ => 0
  vraw := fun _ => 5

/-! ## Asset-builder geometry (`_create_balance_bot_file`, lines 109-196)
and attractor setup (`_create_envs`, lines 242-321) -/

/-- `tray_radius = 0.5`. -/
def tray_radius : ℝ := 0.5

/-- `tray_thickness = 0.02`. -/
def tray_thickness : ℝ := 0.02

/-- `leg_radius = 0.02`. -/
def leg_radius : ℝ := 0.02

/-- `leg_outer_offset = tray_radius - 0.1`. -/
def leg_outer_offset : ℝ := tray_radius - 0.1

/-- `leg_length = leg_outer_offset - 2 * leg_radius`. -/
def leg_length : ℝ := leg_outer_offset - 2 * leg_radius

/-- `tray_height = leg_length * math.sqrt(2) + 2 * leg_radius + 0.5 * tray_thickness`. -/
noncomputable def tray_height : ℝ :=
  leg_length * Real.sqrt 2 + 2 * leg_radius + 0.5 * tray_thickness

/-- `leg_angles = [0.0, 2.0 / 3.0 * math.pi, 4.0 / 3.0 * math.pi]`. -/
noncomputable def leg_angles : Fin 3 → ℝ := ![0, 2 / 3 * Real.pi, 4 / 3 * Real.pi]

/-- Attractor drive stiffness (line 311). -/
def attractor_stiffness : ℝ := 5e7

/-- Attractor drive damping (line 312). -/
def attractor_damping : ℝ := 5e3

/-- The Python loop `for angle in self.leg_angles` that creates the force
sensors (lines 244-248) leaves its loop variable bound to the last list
element once the loop ends; the attractor loop further down the same
function body reads this stale `angle`. -/
noncomputable def stale_angle : ℝ := leg_angles 2

/-- The attractor target point the code computes for lower leg `j`
(lines 314-318): `(leg_outer_offset * cos(angle), leg_outer_offset *
sin(angle), leg_radius)` with `angle` the stale sensor-loop variable, the
same for all three legs. -/
noncomputable def attractor_target (j : Fin 3) : Fin 3 → ℝ :=
  ![leg_outer_offset * Real.cos stale_angle,
    leg_outer_offset * Real.sin stale_angle,
    leg_radius]

/-- Modelled from the spec: the anchor the spec prescribes for leg `j`,
"each lower-leg segment's computed rest position", using leg `j`'s own
azimuthal angle. -/
noncomputable def spec_attractor_target (j : Fin 3) : Fin 3 → ℝ :=
  ![leg_outer_offset * Real.cos (leg_angles j),
    leg_outer_offset * Real.sin (leg_angles j),
    leg_radius]

end BallBalance

namespace BallBalance

/-- `ball_dist` is nonnegative. -/
theorem ball_dist_nonneg (bp : Fin 3 → ℝ) : 0 ≤ ball_dist bp :=
  Real.sqrt_nonneg _

/-- `ball_speed` is nonnegative. -/
theorem ball_speed_nonneg (bv : Fin 3 → ℝ) : 0 ≤ ball_speed bv :=
  Real.sqrt_nonneg _

/-- `ball_speed` is the Euclidean norm of the velocity vector. -/
theorem ball_speed_eq_norm (bv : Fin 3 → ℝ) :
    ball_speed bv = ‖toEuclidean bv‖ := by
  rw [toEuclidean, EuclideanSpace.norm_eq]
  simp [ball_speed, Fin.sum_univ_three, Real.norm_eq_abs, sq_abs, sq]

/-- `ball_dist` is the Euclidean distance from the ball's position (as the
source receives it) to the point `(0, 0, 0.7)` in that same frame. -/
theorem ball_dist_eq_dist (bp : Fin 3 → ℝ) :
    ball_dist bp = dist (toEuclidean bp) (toEuclidean ![0, 0, 0.7]) := by
  rw [toEuclidean, toEuclidean, EuclideanSpace.dist_eq]
  simp [ball_dist, Fin.sum_univ_three, Real.dist_eq, sq_abs, sq]
  ring_nf

/-- At the target point `(0, 0, 0.7)` the distance term vanishes. -/
theorem ball_dist_target : ball_dist ![0, 0, 0.7] = 0 := by
  simp [ball_dist]

/-- A zero velocity vector has zero speed. -/
theorem ball_speed_zero : ball_speed ![0, 0, 0] = 0 := by
  simp [ball_speed]

/-- For nonnegative `d`, the factor `1 / (1 + d)` lies in `(0, 1]`. -/
theorem one_div_one_add_mem_Ioc {d : ℝ} (hd : 0 ≤ d) :
    0 < 1 / (1 + d) ∧ 1 / (1 + d) ≤ 1 :=
  ⟨one_div_pos.mpr (by linarith), by
    rw [div_le_one (by linarith)]; linarith⟩

/-- Claim C1: for every batch of inputs, `compute_bot_reward` returns
`reward = 1/(1+ball_dist) * 1/(1+ball_speed)` elementwise, with `ball_speed`
the Euclidean norm of the ball's linear velocity; this reward lies in
`(0, 1]`; and for an environment whose ball position is exactly
`(0, 0, 0.7)` with zero velocity the reward is exactly `1`. -/
theorem C1_reward_formula (n : ℕ)
    (tp bp bv : Fin n → Fin 3 → ℝ) (ball_radius : ℝ)
    (reset_buf progress_buf : Fin n → ℤ) (max_episode_length : ℝ) (i : Fin n) :
    ((compute_bot_reward n tp bp bv ball_radius reset_buf progress_buf
          max_episode_length).1 i =
        1 / (1 + ball_dist (bp i)) * (1 / (1 + ‖toEuclidean (bv i)‖)))
    ∧ (0 < (compute_bot_reward n tp bp bv ball_radius reset_buf progress_buf
          max_episode_length).1 i
        ∧ (compute_bot_reward n tp bp bv ball_radius reset_buf progress_buf
          max_episode_length).1 i ≤ 1)
    ∧ (compute_bot_reward 1 (fun _ => ![0, 0, 0]) (fun _ => ![0, 0, 0.7])
          (fun _ => ![0, 0, 0]) 0.1 (fun _ => 0) (fun _ => 0) 500).1 0 = 1 := by
  have hd := ball_dist_nonneg (bp i)
  have hs := ball_speed_nonneg (bv i)
  have h1 := one_div_one_add_mem_Ioc hd
  have h2 := one_div_one_add_mem_Ioc hs
  refine ⟨?_, ⟨?_, ?_⟩, ?_⟩
  · simp only [compute_bot_reward, ball_speed_eq_norm]
    norm_num
  · simp only [compute_bot_reward]
    have := mul_pos h1.1 h2.1
    norm_num at this ⊢
    exact this
  · simp only [compute_bot_reward]
    have := mul_le_one₀ h1.2 (le_of_lt h2.1) h2.2
    norm_num at this ⊢
    exact this
  · simp only [compute_bot_reward, ball_dist_target, ball_speed_zero]
    norm_num

/-- Claim C2 counterexample: translating the ball and the tray by the same
offset `(1, 0, 0)` changes the reward (`1` versus `1/2`), so `ball_dist` is
not computed relative to the tray position. -/
theorem C2_counterexample :
    (compute_bot_reward 1 (fun _ => ![0, 0, 0]) (fun _ => ![0, 0, 0.7])
        (fun _ => ![0, 0, 0]) 0.1 (fun _ => 0) (fun _ => 0) 500).1 0 ≠
    (compute_bot_reward 1 (fun _ => ![1, 0, 0]) (fun _ => ![1, 0, 0.7])
        (fun _ => ![0, 0, 0]) 0.1 (fun _ => 0) (fun _ => 0) 500).1 0 := by
  have hshift : ball_dist ![1, 0, 0.7] = 1 := by
    simp [ball_dist]
  simp only [compute_bot_reward, ball_dist_target, ball_speed_zero, hshift]
  norm_num

/-- Claim C2 amended: `ball_dist` is the Euclidean distance from the ball's
position *as stored in the root-state tensor* (the world frame) to the fixed
point `(0, 0, 0.7)`; the `tray_positions` argument is never read, so the
output is independent of the tray position (and therefore not invariant
under joint translation of ball and tray). -/
theorem C2_world_frame (n : ℕ)
    (tp tp2 bp bv : Fin n → Fin 3 → ℝ) (ball_radius : ℝ)
    (reset_buf progress_buf : Fin n → ℤ) (max_episode_length : ℝ) (i : Fin n) :
    (compute_bot_reward n tp bp bv ball_radius reset_buf progress_buf
        max_episode_length =
      compute_bot_reward n tp2 bp bv ball_radius reset_buf progress_buf
        max_episode_length)
    ∧ (compute_bot_reward n tp bp bv ball_radius reset_buf progress_buf
        max_episode_length).1 i =
      1 / (1 + dist (toEuclidean (bp i)) (toEuclidean ![0, 0, 0.7])) *
        (1 / (1 + ‖toEuclidean (bv i)‖)) := by
  refine ⟨rfl, ?_⟩
  simp only [compute_bot_reward, ball_speed_eq_norm, ball_dist_eq_dist]
  norm_num

/-- Claim C4 counterexample: on the marker state, observation entry 13 holds
sensor 1's force component 0 (value `5010`), not sensor 0's force
component 1 (value `5001`), so the slice `[12:15]` is not sensor 0's force
vector. -/
theorem C4_counterexample :
    compute_observations markerObsState ⟨13, by norm_num⟩ =
      markerObsState.sensor_forces ⟨1, by norm_num⟩ ⟨0, by norm_num⟩ ∧
    compute_observations markerObsState ⟨13, by norm_num⟩ ≠
      markerObsState.sensor_forces ⟨0, by norm_num⟩ ⟨1, by norm_num⟩ := by
  constructor <;> norm_num [compute_observations, markerObsState]

/-- Claim C4 amended: the 24-element observation vector places the actuated
joint positions (DOF indices 1, 3, 5) at `0:3`, the actuated joint
velocities at `3:6`, the ball position at `6:9`, the ball linear velocity at
`9:12`, component 0 of each of the three sensors' forces at `12:15`,
component 0 of the three sensors' torques at `15:18`, component 1 of the
three torques at `18:21`, and component 2 of the three torques at `21:24`
(the `[..., c]` slices select a fixed component across sensors, not a fixed
sensor). -/
theorem C4_observation_layout (st : EnvObsState) (j : Fin 3) :
    compute_observations st ⟨j, by omega⟩ =
        st.dof_positions (actuated_dof_indices j)
    ∧ compute_observations st ⟨3 + (j : ℕ), by omega⟩ =
        st.dof_velocities (actuated_dof_indices j)
    ∧ compute_observations st ⟨6 + (j : ℕ), by omega⟩ = st.ball_positions j
    ∧ compute_observations st ⟨9 + (j : ℕ), by omega⟩ = st.ball_linvels j
    ∧ compute_observations st ⟨12 + (j : ℕ), by omega⟩ = st.sensor_forces j 0
    ∧ compute_observations st ⟨15 + (j : ℕ), by omega⟩ = st.sensor_torques j 0
    ∧ compute_observations st ⟨18 + (j : ℕ), by omega⟩ = st.sensor_torques j 1
    ∧ compute_observations st ⟨21 + (j : ℕ), by omega⟩ = st.sensor_torques j 2 := by
  fin_cases j <;>
    refine ⟨?_, ?_, ?_, ?_, ?_, ?_, ?_, ?_⟩ <;>
      simp [compute_observations, actuated_dof_indices]

/-- Claim C3: for every environment in the batch, the reset flag returned by
`compute_bot_reward` is 1 when `progress_buf ≥ max_episode_length - 1`
(regardless of ball state), is 1 when the ball z position is below
`1.5 * ball_radius` (regardless of progress), and otherwise equals the
incoming reset flag unchanged. -/
theorem C3_reset_flag (n : ℕ)
    (tp bp bv : Fin n → Fin 3 → ℝ) (ball_radius : ℝ)
    (reset_buf progress_buf : Fin n → ℤ) (max_episode_length : ℝ) (i : Fin n) :
    (compute_bot_reward n tp bp bv ball_radius reset_buf progress_buf
        max_episode_length).2 i =
      if (progress_buf i : ℝ) ≥ max_episode_length - 1 ∨
          bp i 2 < ball_radius * 1.5 then 1 else reset_buf i := by
  simp only [compute_bot_reward]
  by_cases hfall : bp i 2 < ball_radius * 1.5 <;>
    by_cases htime : (progress_buf i : ℝ) ≥ max_episode_length - 1 <;>
      simp [hfall, htime]

/-- Claim C6: `reset_idx` leaves every environment outside its index
argument untouched: its task-side root states, DOF states, progress
counter, reset flag and position targets, and its engine-side root, DOF
and target rows, all keep their pre-call values — the indexed engine
writes cover only the reset subset's actor and DOF slots. -/
theorem C6_reset_frame (n : ℕ) (s : SimState n) (env_ids : Fin n → Bool)
    (smp : BallSamples n) (e : Fin n) (he : env_ids e = false) :
    ((reset_idx s env_ids smp).root_states e = s.root_states e)
    ∧ ((reset_idx s env_ids smp).dof_states e = s.dof_states e)
    ∧ ((reset_idx s env_ids smp).progress_buf e = s.progress_buf e)
    ∧ ((reset_idx s env_ids smp).reset_buf e = s.reset_buf e)
    ∧ ((reset_idx s env_ids smp).dof_position_targets e =
        s.dof_position_targets e)
    ∧ ((reset_idx s env_ids smp).engine_root e = s.engine_root e)
    ∧ ((reset_idx s env_ids smp).engine_dof e = s.engine_dof e)
    ∧ ((reset_idx s env_ids smp).engine_targets e = s.engine_targets e) := by
  refine ⟨?_, rfl, ?_, ?_, rfl, ?_, ?_, rfl⟩
  · funext a c; simp [reset_idx, he]
  · simp [reset_idx, he]
  · simp [reset_idx, he]
  · funext a c; simp [reset_idx, he]
  · funext d j; simp [reset_idx, he]

/-- Witness for C6: environment 1 is outside the reset subset `{0}` on the
all-zero two-environment state, and its reset flag is unchanged. -/
theorem C6_reset_frame_witness :
    ((fun e : Fin 2 => decide ((e : ℕ) = 0)) 1 = false)
    ∧ (reset_idx zeroState2 (fun e => decide ((e : ℕ) = 0))
        (rangeSamples 2)).reset_buf 1 = zeroState2.reset_buf 1 :=
  ⟨rfl, (C6_reset_frame 2 zeroState2 (fun e => decide ((e : ℕ) = 0))
    (rangeSamples 2) 1 rfl).2.2.2.1⟩

/-- Numeric value of the root-state component literal `3`. -/
@[simp] theorem fin13_val_three : ((3 : Fin 13) : ℕ) = 3 := rfl

/-- Numeric value of the root-state component literal `4`. -/
@[simp] theorem fin13_val_four : ((4 : Fin 13) : ℕ) = 4 := rfl

/-- Numeric value of the root-state component literal `5`. -/
@[simp] theorem fin13_val_five : ((5 : Fin 13) : ℕ) = 5 := rfl

/-- Numeric value of the root-state component literal `6`. -/
@[simp] theorem fin13_val_six : ((6 : Fin 13) : ℕ) = 6 := rfl

/-- Numeric value of the root-state component literal `7`. -/
@[simp] theorem fin13_val_seven : ((7 : Fin 13) : ℕ) = 7 := rfl

/-- Numeric value of the root-state component literal `8`. -/
@[simp] theorem fin13_val_eight : ((8 : Fin 13) : ℕ) = 8 := rfl

/-- Numeric value of the root-state component literal `9`. -/
@[simp] theorem fin13_val_nine : ((9 : Fin 13) : ℕ) = 9 := rfl

/-- Numeric value of the root-state component literal `10`. -/
@[simp] theorem fin13_val_ten : ((10 : Fin 13) : ℕ) = 10 := rfl

/-- Numeric value of the root-state component literal `11`. -/
@[simp] theorem fin13_val_eleven : ((11 : Fin 13) : ℕ) = 11 := rfl

/-- Numeric value of the root-state component literal `12`. -/
@[simp] theorem fin13_val_twelve : ((12 : Fin 13) : ℕ) = 12 := rfl

/-- Claim C5 counterexample: on a reset environment whose DOF states
differ from the recorded initial snapshot (`42` versus `0`), `reset_idx`
leaves the DOF states at `42`: the non-ball state is not fully restored
from the snapshot (only the root states are; the source has no
`dof_states[env_ids] = initial_dof_states[env_ids]`). -/
theorem C5_counterexample :
    (reset_idx c5State (fun _ => true) (rangeSamples 1)).dof_states 0 0 0 = 42
    ∧ c5State.initial_dof_states 0 0 0 = 0
    ∧ (reset_idx c5State (fun _ => true) (rangeSamples 1)).dof_states 0 0 0 ≠
        c5State.initial_dof_states 0 0 0 := by
  refine ⟨rfl, rfl, ?_⟩
  norm_num [reset_idx, c5State]

/-- Claim C5 amended: for every environment in the subset passed to
`reset_idx`, given draws inside the sampler ranges (`dists ∈ [0.001, 0.5]`,
`vpos ∈ [1, 2]`, a unit 2D direction, and the degenerate draws
`hspeeds = 0`, `vraw = 5`), after the call the ball height lies in
`[1, 2]`, the horizontal offset magnitude lies in `[0.001, 0.5]`, the
horizontal velocity is exactly zero, the vertical velocity is exactly
`-5`, the angular velocity is zero, the orientation is the identity
quaternion `(x, y, z, w) = (0, 0, 0, 1)`, the progress counter and reset
flag are cleared to `0`, and the non-ball (bot) *root* state is first
restored from the recorded initial snapshot — the in-memory DOF states,
however, are left untouched rather than restored. -/
theorem C5_reset_subset (n : ℕ) (s : SimState n) (env_ids : Fin n → Bool)
    (smp : BallSamples n)
    (hin : ∀ e2, env_ids e2 = true →
      0.001 ≤ smp.dists e2 ∧ smp.dists e2 ≤ 0.5 ∧
      1 ≤ smp.vpos e2 ∧ smp.vpos e2 ≤ 2 ∧
      smp.hspeeds e2 = 0 ∧ smp.vraw e2 = 5 ∧
      smp.dirs e2 0 ^ 2 + smp.dirs e2 1 ^ 2 = 1)
    (e : Fin n) (he : env_ids e = true) :
    (1 ≤ (reset_idx s env_ids smp).root_states e 1 ⟨2, by norm_num⟩
      ∧ (reset_idx s env_ids smp).root_states e 1 ⟨2, by norm_num⟩ ≤ 2)
    ∧ (0.001 ≤ Real.sqrt
          ((reset_idx s env_ids smp).root_states e 1 ⟨0, by norm_num⟩ ^ 2 +
            (reset_idx s env_ids smp).root_states e 1 ⟨1, by norm_num⟩ ^ 2)
        ∧ Real.sqrt
          ((reset_idx s env_ids smp).root_states e 1 ⟨0, by norm_num⟩ ^ 2 +
            (reset_idx s env_ids smp).root_states e 1 ⟨1, by norm_num⟩ ^ 2)
          ≤ 0.5)
    ∧ ((reset_idx s env_ids smp).root_states e 1 ⟨7, by norm_num⟩ = 0
      ∧ (reset_idx s env_ids smp).root_states e 1 ⟨8, by norm_num⟩ = 0)
    ∧ (reset_idx s env_ids smp).root_states e 1 ⟨9, by norm_num⟩ = -5
    ∧ ((reset_idx s env_ids smp).root_states e 1 ⟨10, by norm_num⟩ = 0
      ∧ (reset_idx s env_ids smp).root_states e 1 ⟨11, by norm_num⟩ = 0
      ∧ (reset_idx s env_ids smp).root_states e 1 ⟨12, by norm_num⟩ = 0)
    ∧ ((reset_idx s env_ids smp).root_states e 1 ⟨3, by norm_num⟩ = 0
      ∧ (reset_idx s env_ids smp).root_states e 1 ⟨4, by norm_num⟩ = 0
      ∧ (reset_idx s env_ids smp).root_states e 1 ⟨5, by norm_num⟩ = 0
      ∧ (reset_idx s env_ids smp).root_states e 1 ⟨6, by norm_num⟩ = 1)
    ∧ (reset_idx s env_ids smp).progress_buf e = 0
    ∧ (reset_idx s env_ids smp).reset_buf e = 0
    ∧ (∀ c : Fin 13,
        (reset_idx s env_ids smp).root_states e 0 c =
          s.initial_root_states e 0 c)
    ∧ (reset_idx s env_ids smp).dof_states = s.dof_states := by
  obtain ⟨hdlo, hdhi, hvlo, hvhi, hs0, hvr, hdir⟩ := hin e he
  have hdpos : (0 : ℝ) ≤ smp.dists e := le_trans (by norm_num) hdlo
  refine ⟨?_, ?_, ?_, ?_, ?_, ?_, ?_, ?_, ?_, rfl⟩
  · simp [reset_idx, he]
    exact ⟨hvlo, hvhi⟩
  · have key : (smp.dists e * smp.dirs e 0) ^ 2 +
        (smp.dists e * smp.dirs e 1) ^ 2 = smp.dists e ^ 2 := by
      rw [mul_pow, mul_pow, ← mul_add, hdir, mul_one]
    simp only [reset_idx, he]
    simp
    rw [key, Real.sqrt_sq hdpos]
    exact ⟨hdlo, hdhi⟩
  · constructor <;> simp [reset_idx, he, hs0]
  · simp [reset_idx, he, hvr]
  · refine ⟨?_, ?_, ?_⟩ <;> simp [reset_idx, he]
  · refine ⟨?_, ?_, ?_, ?_⟩ <;> simp [reset_idx, he]
  · simp [reset_idx, he]
  · simp [reset_idx, he]
  · intro c
    simp [reset_idx, he]

/-- Witness for C5: on the concrete reset state `c5State` with the
in-range draws `rangeSamples`, environment 0's sampled ball height lies in
`[1, 2]`. -/
theorem C5_reset_subset_witness :
    1 ≤ (reset_idx c5State (fun _ => true)
        (rangeSamples 1)).root_states 0 1 ⟨2, by norm_num⟩
    ∧ (reset_idx c5State (fun _ => true)
        (rangeSamples 1)).root_states 0 1 ⟨2, by norm_num⟩ ≤ 2 :=
  (C5_reset_subset 1 c5State (fun _ => true) (rangeSamples 1)
    (fun e2 _ => by
      refine ⟨by norm_num [rangeSamples], by norm_num [rangeSamples],
        by norm_num [rangeSamples], by norm_num [rangeSamples],
        by norm_num [rangeSamples], by norm_num [rangeSamples], ?_⟩
      norm_num [rangeSamples])
    0 rfl).1

/-- `reset_idx` never writes the integrated position targets, which
justifies reading the incoming targets after the conditional `reset_idx`
call inside `pre_physics_step`. -/
theorem reset_idx_keeps_targets (n : ℕ) (s : SimState n)
    (env_ids : Fin n → Bool) (smp : BallSamples n) :
    (reset_idx s env_ids smp).dof_position_targets =
      s.dof_position_targets := rfl

/-- Characterization of the targets produced by one `pre_physics_step`
call: environments flagged for reset this call end at zero; every other
environment ends at the clamp of its previous target plus the
per-step delta `dt * action_speed_scale * action` on the actuated DOFs
`{1, 3, 5}` (and of its unchanged previous target on the passive DOFs). -/
theorem pre_physics_step_targets (n : ℕ) (s : SimState n)
    (actions : Fin n → Fin 3 → ℝ) (smp : BallSamples n)
    (dt action_speed_scale : ℝ) (lower upper : Fin 6 → ℝ)
    (e : Fin n) (d : Fin 6) :
    (pre_physics_step s actions smp dt action_speed_scale lower
        upper).dof_position_targets e d =
      if s.reset_buf e ≠ 0 then 0
      else tensor_clamp
        (s.dof_position_targets e d +
          (if (d : ℕ) = 1 then dt * action_speed_scale * actions e 0
           else if (d : ℕ) = 3 then dt * action_speed_scale * actions e 1
           else if (d : ℕ) = 5 then dt * action_speed_scale * actions e 2
           else 0))
        (lower d) (upper d) := by
  by_cases hex : ∃ e2 : Fin n, decide (s.reset_buf e2 ≠ 0) = true
  · by_cases hr : s.reset_buf e ≠ 0 <;>
      by_cases hd1 : (d : ℕ) = 1 <;>
        by_cases hd3 : (d : ℕ) = 3 <;>
          by_cases hd5 : (d : ℕ) = 5 <;>
            simp [pre_physics_step, reset_idx, hex, hr, hd1, hd3, hd5]
  · by_cases hr : s.reset_buf e ≠ 0 <;>
      by_cases hd1 : (d : ℕ) = 1 <;>
        by_cases hd3 : (d : ℕ) = 3 <;>
          by_cases hd5 : (d : ℕ) = 5 <;>
            simp [pre_physics_step, hex, hr, hd1, hd3, hd5]

/-- Claim C7: in every `pre_physics_step` call the action 3-vector acts as
a per-step delta `dt * action_speed_scale * action` added to the
integrated targets at the actuated DOFs `{1, 3, 5}` (never an absolute
target), the result is clamped to the joint limits, the environments reset
this call end with zero targets, and the engine receives exactly the final
(post-zeroing) targets. -/
theorem C7_action_integration (n : ℕ) (s : SimState n)
    (actions : Fin n → Fin 3 → ℝ) (smp : BallSamples n)
    (dt action_speed_scale : ℝ) (lower upper : Fin 6 → ℝ)
    (e : Fin n) (d : Fin 6) :
    ((pre_physics_step s actions smp dt action_speed_scale lower
        upper).dof_position_targets e d =
      if s.reset_buf e ≠ 0 then 0
      else tensor_clamp
        (s.dof_position_targets e d +
          (if (d : ℕ) = 1 then dt * action_speed_scale * actions e 0
           else if (d : ℕ) = 3 then dt * action_speed_scale * actions e 1
           else if (d : ℕ) = 5 then dt * action_speed_scale * actions e 2
           else 0))
        (lower d) (upper d))
    ∧ (pre_physics_step s actions smp dt action_speed_scale lower
        upper).engine_targets e d =
      (pre_physics_step s actions smp dt action_speed_scale lower
        upper).dof_position_targets e d :=
  ⟨pre_physics_step_targets n s actions smp dt action_speed_scale lower
      upper e d, rfl⟩

/-- For `mn ≤ mx`, `tensor_clamp` lands in `[mn, mx]`. -/
theorem tensor_clamp_mem {t mn mx : ℝ} (h : mn ≤ mx) :
    mn ≤ tensor_clamp t mn mx ∧ tensor_clamp t mn mx ≤ mx :=
  ⟨le_max_right _ _, max_le (min_le_right _ _) h⟩

/-- Claim C10: provided every DOF's lower limit is `≤ 0` and upper limit is
`≥ 0`, the integrated position targets are within the limits after
initialization (they start at zero) and after every `pre_physics_step`
call, whatever the incoming state and actions: each update is clamped to
the limits and the post-clamp zeroing of reset environments stays within
them. -/
theorem C10_targets_within_limits (n : ℕ) (lower upper : Fin 6 → ℝ)
    (hlim : ∀ d : Fin 6, lower d ≤ 0 ∧ 0 ≤ upper d) :
    (∀ (e : Fin n) (d : Fin 6),
      lower d ≤ initial_dof_position_targets n e d ∧
        initial_dof_position_targets n e d ≤ upper d)
    ∧ ∀ (s : SimState n) (actions : Fin n → Fin 3 → ℝ) (smp : BallSamples n)
        (dt scale : ℝ) (e : Fin n) (d : Fin 6),
        lower d ≤ (pre_physics_step s actions smp dt scale lower
            upper).dof_position_targets e d
        ∧ (pre_physics_step s actions smp dt scale lower
            upper).dof_position_targets e d ≤ upper d := by
  constructor
  · intro e d
    have := hlim d
    simp only [initial_dof_position_targets]
    exact ⟨this.1, this.2⟩
  · intro s actions smp dt scale e d
    have hlu : lower d ≤ upper d := le_trans (hlim d).1 (hlim d).2
    rw [pre_physics_step_targets]
    by_cases hr : s.reset_buf e ≠ 0
    · simp [hr]
      exact ⟨(hlim d).1, (hlim d).2⟩
    · simp [hr]
      exact tensor_clamp_mem hlu

/-- Witness for C10: with limits `[-1, 1]` on every DOF, the initial target
of environment 0, DOF 0 lies within the limits. -/
theorem C10_targets_within_limits_witness :
    (-1 : ℝ) ≤ initial_dof_position_targets 1 0 0
    ∧ initial_dof_position_targets 1 0 0 ≤ (1 : ℝ) :=
  (C10_targets_within_limits 1 (fun _ => -1) (fun _ => 1)
    (fun _ => by norm_num)).1 0 0

/-- Claim C8: the asset builder computes
`tray_height = leg_length * sqrt 2 + 2 * leg_radius + 0.5 * tray_thickness`
with `leg_length = (tray_radius - 0.1) - 2 * leg_radius`; with the fixed
constants `tray_radius = 0.5`, `leg_radius = 0.02`, `tray_thickness = 0.02`
this yields `leg_length = 0.36` and
`tray_height = 0.36 * sqrt 2 + 0.04 + 0.01` exactly. -/
theorem C8_tray_height :
    leg_length = (tray_radius - 0.1) - 2 * leg_radius
    ∧ leg_length = 0.36
    ∧ tray_height = leg_length * Real.sqrt 2 + 2 * leg_radius +
        0.5 * tray_thickness
    ∧ tray_height = 0.36 * Real.sqrt 2 + 0.04 + 0.01 := by
  norm_num [leg_length, leg_outer_offset, tray_radius, leg_radius,
    tray_height, tray_thickness]

/-- The cosine of the third leg angle `4π/3`. -/
theorem cos_four_thirds_pi : Real.cos (4 / 3 * Real.pi) = -(1 / 2) := by
  have h : (4 / 3 : ℝ) * Real.pi = Real.pi / 3 + Real.pi := by ring
  rw [h, Real.cos_add, Real.cos_pi, Real.sin_pi, Real.cos_pi_div_three]
  ring

/-- Claim C9 (code behaviour at the failing input): the three attractor
target points the code computes coincide — each equals
`(leg_outer_offset * cos(leg_angles 2), leg_outer_offset * sin(leg_angles 2),
leg_radius)`, computed from the stale sensor-loop angle `4π/3` — and in
particular leg 0's attractor is not anchored at leg 0's own rest position,
so the anchors are neither per-leg nor distinct. -/
theorem C9_attractor_anchor_bug :
    (∀ j k : Fin 3, attractor_target j = attractor_target k)
    ∧ attractor_target 0 0 = leg_outer_offset * Real.cos (leg_angles 2)
    ∧ attractor_target 0 0 ≠ spec_attractor_target 0 0 := by
  refine ⟨fun j k => rfl, rfl, ?_⟩
  simp [attractor_target, spec_attractor_target, stale_angle, leg_angles,
    leg_outer_offset, tray_radius, cos_four_thirds_pi]
  norm_num

end BallBalance
